import Mathlib

/-!
Shallow embedding of two state modules of this repository:

* `useColorAreaState` (src/unnamed/part_000): the color-area value model —
  channel resolution, pointer-to-value conversion, stepped increment and
  decrement, and drag-lifecycle signalling.
* `useSubMenuTrigger` (src/packages/@react-aria/menu/src/useSubMenuTrigger.ts):
  the submenu open/close timing state machine — hover-delay timer, keyboard
  and press handlers.

Numeric channel values are modelled as rationals (ℚ); collaborator code that
is part of the repository but absent from src/ (the `Color` value object,
`clamp` and `snapValueToStep` from `@react-aria/utils`) is modelled from the
spec, as marked on each definition.
-/

/-- The channel names of `ColorChannel` from `@react-types/color`:
the RGB triple plus the HSB/HSL channels and alpha. -/
inductive ColorChannel where
  | red | green | blue
  | hue | saturation | brightness | lightness
  | alpha
  deriving DecidableEq, Repr, Fintype

/-- Modelled from the spec: a channel's numeric range object
`{minValue, maxValue, step}` as reported by `Color.getChannelRange`;
the `Color` class (`./Color`) is part of the repository but not under src/. -/
structure ChannelRange where
  minValue : ℚ
  maxValue : ℚ
  step : ℚ
  deriving DecidableEq, Repr

/-- Modelled from the spec: the immutable `Color` value object (`./Color`,
not under src/): named channels, each with a numeric value and a range. -/
structure Color where
  channelValue : ColorChannel → ℚ
  channelRange : ColorChannel → ChannelRange

/-- Modelled from the spec: `getChannelValue(channel)` of the `Color`
collaborator. -/
def Color.getChannelValue (c : Color) (ch : ColorChannel) : ℚ :=
  c.channelValue ch

/-- Modelled from the spec: `getChannelRange(channel)` of the `Color`
collaborator. -/
def Color.getChannelRange (c : Color) (ch : ColorChannel) : ChannelRange :=
  c.channelRange ch

/-- Modelled from the spec: `withChannelValue(channel, v)` returns a new
Color with the one channel replaced and all other channels unchanged. -/
def Color.withChannelValue (c : Color) (ch : ColorChannel) (v : ℚ) : Color :=
  { c with channelValue := fun ch' => if ch' = ch then v else c.channelValue ch' }

/-- Modelled from the spec: `clamp` from `@react-aria/utils` (not under
src/): restrict a value to a closed interval. -/
def clamp (v lo hi : ℚ) : ℚ :=
  min (max v lo) hi

/-- Modelled from the spec: `snapValueToStep` from `@react-aria/utils` (not
under src/): round a value to the nearest multiple of `step` counted from
`minValue`, then keep it within `[minValue, maxValue]`. -/
def snapValueToStep (value minValue maxValue step : ℚ) : ℚ :=
  if step = 0 then clamp value minValue maxValue
  else clamp (minValue + (round ((value - minValue) / step) : ℤ) * step) minValue maxValue

/-- Channel resolution of `useColorAreaState` (src/unnamed/part_000 lines
80–107): the two `if (!xChannel)` / `else if (!yChannel)` fallback switches,
followed by `zChannel` computed as the first element of
`difference(RGBSet, {xChannel, yChannel})` in the insertion order
red, green, blue. `none` models an absent prop. -/
def resolveChannels (xc : Option ColorChannel) (yc : Option ColorChannel) :
    ColorChannel × ColorChannel × Option ColorChannel :=
  let xy : ColorChannel × ColorChannel :=
    match xc with
    | none =>
      match yc with
      | some .red => (.blue, .red)
      | some .green => (.blue, .green)
      | some .blue => (.red, .blue)
      | _ => (.blue, .green)
    | some x =>
      match yc with
      | none =>
        match x with
        | .red => (.red, .green)
        | .blue => (.blue, .red)
        | _ => (.blue, .green)
      | some y => (x, y)
  let z := ([ColorChannel.red, .green, .blue].filter
    (fun c => c ≠ xy.1 ∧ c ≠ xy.2)).head?
  (xy.1, xy.2, z)

/-- The resolved state owned by `useColorAreaState`: the current color, the
two resolved axis channels, the derived z channel and the resolved steps. -/
structure ColorAreaModel where
  color : Color
  xChannel : ColorChannel
  yChannel : ColorChannel
  zChannel : Option ColorChannel
  xChannelStep : ℚ
  yChannelStep : ℚ

/-- The props consumed by `useColorAreaState` (src/unnamed/part_000 line 70);
`none` models an absent prop. -/
structure ColorAreaProps where
  value : Option Color
  defaultValue : Option Color
  xChannel : Option ColorChannel
  yChannel : Option ColorChannel
  xChannelStep : Option ℚ
  yChannelStep : Option ℚ

/-- Modelled from the spec: `DEFAULT_COLOR = parseColor('hsb(0, 100%, 100%)')`
(src/unnamed/part_000 line 62); `parseColor` lives in `./Color`, not under
src/. HSB channels range over hue 0–360 and percentages 0–100, alpha 0–1,
each with the intrinsic step 1 except alpha (0.01). -/
def DEFAULT_COLOR : Color where
  channelValue := fun ch =>
    match ch with
    | .hue => 0
    | .saturation => 100
    | .brightness => 100
    | .alpha => 1
    | _ => 0
  channelRange := fun ch =>
    match ch with
    | .hue => ⟨0, 360, 1⟩
    | .alpha => ⟨0, 1, 1/100⟩
    | _ => ⟨0, 100, 1⟩

/-- Construction performed by `useColorAreaState` (src/unnamed/part_000 lines
69–135): pick the controlled value, else the default value, else
`DEFAULT_COLOR`; resolve the axis channels; resolve each axis step from the
destructuring default `1` (line 70) with the `if (!xChannelStep)` falsy-test
fallback to the channel's intrinsic step (lines 116–122, a JS falsy number
being `0`). -/
def useColorAreaState (props : ColorAreaProps) : ColorAreaModel :=
  let color := (props.value.orElse fun _ => props.defaultValue).getD DEFAULT_COLOR
  let r := resolveChannels props.xChannel props.yChannel
  let xChannel := r.1
  let yChannel := r.2.1
  let xChannelStep := props.xChannelStep.getD 1
  let xChannelStep :=
    if xChannelStep = 0 then (color.getChannelRange xChannel).step else xChannelStep
  let yChannelStep := props.yChannelStep.getD 1
  let yChannelStep :=
    if yChannelStep = 0 then (color.getChannelRange yChannel).step else yChannelStep
  { color := color
    xChannel := xChannel
    yChannel := yChannel
    zChannel := r.2.2
    xChannelStep := xChannelStep
    yChannelStep := yChannelStep }

/-- The linear x mapping inside `setColorFromPoint` (src/unnamed/part_000
line 149): `minValueX + clamp(x, 0, 1) * (maxValueX - minValueX)`. -/
def mappedXValue (st : ColorAreaModel) (x : ℚ) : ℚ :=
  let r := st.color.getChannelRange st.xChannel
  r.minValue + clamp x 0 1 * (r.maxValue - r.minValue)

/-- The inverted linear y mapping inside `setColorFromPoint`
(src/unnamed/part_000 line 150):
`minValueY + (1 - clamp(y, 0, 1)) * (maxValueY - minValueY)`. -/
def mappedYValue (st : ColorAreaModel) (y : ℚ) : ℚ :=
  let r := st.color.getChannelRange st.yChannel
  r.minValue + (1 - clamp y 0 1) * (r.maxValue - r.minValue)

/-- `setColorFromPoint(x, y)` (src/unnamed/part_000 lines 146–165): compare
each mapped axis value with the current channel value; on a difference, snap
it to the step and replace that channel; `some c` models the `setColor(c)`
call, `none` models the branch where `newColor` stayed undefined and no
update is emitted. -/
def setColorFromPoint (st : ColorAreaModel) (x y : ℚ) : Option Color :=
  let rX := st.color.getChannelRange st.xChannel
  let rY := st.color.getChannelRange st.yChannel
  let xValue := st.color.getChannelValue st.xChannel
  let yValue := st.color.getChannelValue st.yChannel
  let newXValue := mappedXValue st x
  let newYValue := mappedYValue st y
  let newColor : Option Color :=
    if newXValue ≠ xValue then
      some (st.color.withChannelValue st.xChannel
        (snapValueToStep newXValue rX.minValue rX.maxValue st.xChannelStep))
    else none
  let newColor : Option Color :=
    if newYValue ≠ yValue then
      some ((newColor.getD st.color).withChannelValue st.yChannel
        (snapValueToStep newYValue rY.minValue rY.maxValue st.yChannelStep))
    else newColor
  newColor

/-- `incrementX(minStepSize = 0)` (src/unnamed/part_000 lines 173–179):
step by `max(minStepSize, xChannelStep)` capped at `maxValue`, only when
strictly below `maxValue`; otherwise the state is returned unchanged. -/
def incrementX (st : ColorAreaModel) (minStepSize : ℚ) : ColorAreaModel :=
  let s := max minStepSize st.xChannelStep
  let maxValue := (st.color.getChannelRange st.xChannel).maxValue
  let xValue := st.color.getChannelValue st.xChannel
  if xValue < maxValue then
    { st with color := st.color.withChannelValue st.xChannel (min (xValue + s) maxValue) }
  else st

/-- `incrementY(minStepSize = 0)` (src/unnamed/part_000 lines 180–186). -/
def incrementY (st : ColorAreaModel) (minStepSize : ℚ) : ColorAreaModel :=
  let s := max minStepSize st.yChannelStep
  let maxValue := (st.color.getChannelRange st.yChannel).maxValue
  let yValue := st.color.getChannelValue st.yChannel
  if yValue < maxValue then
    { st with color := st.color.withChannelValue st.yChannel (min (yValue + s) maxValue) }
  else st

/-- `decrementX(minStepSize = 0)` (src/unnamed/part_000 lines 187–193):
step down by `max(minStepSize, xChannelStep)` floored at `minValue`, only
when strictly above `minValue`. -/
def decrementX (st : ColorAreaModel) (minStepSize : ℚ) : ColorAreaModel :=
  let s := max minStepSize st.xChannelStep
  let minValue := (st.color.getChannelRange st.xChannel).minValue
  let xValue := st.color.getChannelValue st.xChannel
  if minValue < xValue then
    { st with color := st.color.withChannelValue st.xChannel (max (xValue - s) minValue) }
  else st

/-- `decrementY(minStepSize = 0)` (src/unnamed/part_000 lines 194–200). -/
def decrementY (st : ColorAreaModel) (minStepSize : ℚ) : ColorAreaModel :=
  let s := max minStepSize st.yChannelStep
  let minValue := (st.color.getChannelRange st.yChannel).minValue
  let yValue := st.color.getChannelValue st.yChannel
  if minValue < yValue then
    { st with color := st.color.withChannelValue st.yChannel (max (yValue - s) minValue) }
  else st

/-- The drag-lifecycle state of `useColorAreaState` (src/unnamed/part_000
lines 124–125 and 77–78): the `isDragging` React state, the `isDraggingRef`
mutable flag read by `setDragging`, and `valueRef`, the always-current
reference to the most recently committed color. -/
structure DragModel where
  isDragging : Bool
  isDraggingRef : Bool
  valueRef : Color

/-- `setDragging(isDragging)` (src/unnamed/part_000 lines 201–211): record
the previous flag, overwrite it, and call `onChangeEnd(valueRef.current)`
exactly on a true-to-false transition (with `onChangeEnd` provided). The
second component models the emitted callback payload: `some c` when
`onChangeEnd(c)` fired, `none` when it did not. -/
def setDragging (st : DragModel) (isDragging : Bool) : DragModel × Option Color :=
  let wasDragging := st.isDraggingRef
  let fired := if !isDragging && wasDragging then some st.valueRef else none
  ({ st with isDraggingRef := isDragging, isDragging := isDragging }, fired)

/-- A commit of a new color value between drag events: `valueRef.current`
tracks the latest committed color (src/unnamed/part_000 lines 77–78). -/
def commitValue (st : DragModel) (c : Color) : DragModel :=
  { st with valueRef := c }

/-- The submenu trigger's timing state (useSubMenuTrigger.ts lines 44–71):
`isOpen` of the external `SubMenuTriggerState`, `openTimeout` holding the
currently tracked timer handle, plus bookkeeping of the armed-and-uncanceled
timers (`live`) and a supply of fresh handles (`nextId`) to express the
single-pending-timer invariant. -/
structure SubMenuTriggerModel where
  isOpen : Bool
  openTimeout : Option Nat
  live : List Nat
  nextId : Nat
  deriving DecidableEq, Repr

/-- The initial state of a freshly mounted trigger: closed, no timer. -/
def initSubMenuTrigger : SubMenuTriggerModel :=
  { isOpen := false, openTimeout := none, live := [], nextId := 0 }

/-- `cancelOpenTimeout` (useSubMenuTrigger.ts lines 50–55): if a handle is
tracked, `clearTimeout` it (it can no longer fire) and clear the ref. -/
def cancelOpenTimeout (s : SubMenuTriggerModel) : SubMenuTriggerModel :=
  match s.openTimeout with
  | some id => { s with openTimeout := none, live := s.live.erase id }
  | none => s

/-- `onSubmenuOpen` (useSubMenuTrigger.ts lines 57–60): cancel any pending
timer, then `state.open(focusStrategy)`. -/
def onSubmenuOpen (s : SubMenuTriggerModel) : SubMenuTriggerModel :=
  let s := cancelOpenTimeout s
  { s with isOpen := true }

/-- `onSubMenuClose` (useSubMenuTrigger.ts lines 62–65): cancel any pending
timer, then `state.close()`. -/
def onSubMenuClose (s : SubMenuTriggerModel) : SubMenuTriggerModel :=
  let s := cancelOpenTimeout s
  { s with isOpen := false }

/-- The events driving the timing state machine: hover enter/exit
(`onHoverChange`), an armed timer firing its callback, an immediate
keyboard- or touch-driven open, a close, and unmount (the `useLayoutEffect`
cleanup, lines 67–71). -/
inductive SubMenuEvent where
  | hoverEnter
  | hoverExit
  | timerFire (id : Nat)
  | keyboardOpen
  | touchOpen
  | closeMenu
  | unmount
  deriving DecidableEq, Repr

/-- One step of the timing state machine, each arm translated from
useSubMenuTrigger.ts: `hoverEnter`/`hoverExit` from `onHoverChange`
(lines 137–148) — a timer is armed only while closed with no tracked handle;
`timerFire id` runs the `setTimeout` callback (lines 140–143) only if that
timer is still armed and uncanceled; `keyboardOpen`/`touchOpen` from the
trigger keydown and press handlers calling `onSubmenuOpen`; `closeMenu` from
`onSubMenuClose`; `unmount` from the effect cleanup calling
`cancelOpenTimeout`. -/
def subMenuStep (s : SubMenuTriggerModel) : SubMenuEvent → SubMenuTriggerModel
  | .hoverEnter =>
    if !s.isOpen && s.openTimeout.isNone then
      { s with openTimeout := some s.nextId, live := s.live ++ [s.nextId],
               nextId := s.nextId + 1 }
    else s
  | .hoverExit => cancelOpenTimeout s
  | .timerFire id =>
    if s.live.contains id then onSubmenuOpen { s with live := s.live.erase id }
    else s
  | .keyboardOpen => onSubmenuOpen s
  | .touchOpen => onSubmenuOpen s
  | .closeMenu => onSubMenuClose s
  | .unmount => cancelOpenTimeout s

/-- Run the timing state machine over a sequence of events. -/
def subMenuRun (s : SubMenuTriggerModel) (es : List SubMenuEvent) : SubMenuTriggerModel :=
  es.foldl subMenuStep s

/-- The tracked handle always matches the armed timers: no timer pending
without a tracked handle, and the tracked handle is the unique pending
timer. -/
def SubMenuTriggerModel.Inv (s : SubMenuTriggerModel) : Prop :=
  match s.openTimeout with
  | none => s.live = []
  | some id => s.live = [id]

instance (s : SubMenuTriggerModel) : Decidable s.Inv := by
  unfold SubMenuTriggerModel.Inv
  cases s.openTimeout <;> infer_instance

/-- The key names relevant to the submenu keyboard handlers. -/
inductive MenuKey where
  | arrowLeft | arrowRight | escape | other
  deriving DecidableEq, Repr

/-- The locale text direction from `useLocale`. -/
inductive Direction where
  | ltr | rtl
  deriving DecidableEq, Repr

/-- `subMenuKeyboardProps.onKeyDown` (useSubMenuTrigger.ts lines 78–99),
applied to the number of currently open menu levels (the root menu plus each
open submenu): ArrowLeft in LTR runs `onSubMenuClose`, closing this submenu
(one level); the ArrowRight-in-RTL branch only evaluates the expression
`onSubMenuClose;` without invoking it, so it changes nothing; Escape runs
`state.closeAll()`, closing every level; any other key is not consumed and
propagation continues (second component `true`). -/
def subMenuKeyDown (dir : Direction) (k : MenuKey) (openLevels : Nat) : Nat × Bool :=
  match k with
  | .arrowLeft => if dir = .ltr then (openLevels - 1, false) else (openLevels, false)
  | .arrowRight => (openLevels, false)
  | .escape => (0, false)
  | .other => (openLevels, true)

/-- The pointer types of a `PressEvent`. -/
inductive PointerType where
  | mouse | pen | touch | keyboard | virtual
  deriving DecidableEq, Repr, Fintype

/-- The focus strategies of `FocusStrategy` from `@react-types/shared`. -/
inductive FocusStrategy where
  | first | last
  deriving DecidableEq, Repr

/-- `onPressStart` (useSubMenuTrigger.ts lines 123–128): for a virtual or
keyboard press, `onSubmenuOpen('first')`; otherwise nothing. `some fs`
models an open request with focus strategy `fs`. -/
def onPressStart (pt : PointerType) : Option (Option FocusStrategy) :=
  if pt = .virtual || pt = .keyboard then some (some .first) else none

/-- `onPress` (useSubMenuTrigger.ts lines 130–134): for a touch press,
`onSubmenuOpen()` with no focus strategy; otherwise nothing. -/
def onPress (pt : PointerType) : Option (Option FocusStrategy) :=
  if pt = .touch then some none else none

/-- A concrete color fixture: every channel value 0, red channel range
`{0, 255, 2}` (intrinsic step 2), all other channels `{0, 255, 1}`. -/
def testColorStep2 : Color where
  channelValue := fun _ => 0
  channelRange := fun ch =>
    match ch with
    | .red => ⟨0, 255, 2⟩
    | _ => ⟨0, 255, 1⟩

/-- The model built from empty props: the default color with the default
axis channels. -/
def testAreaModel : ColorAreaModel :=
  useColorAreaState ⟨none, none, none, none, none, none⟩

/-- `z` is the unique member of the RGB triple distinct from both `x` and
`y`, in the sense of the spec's `fullSet − \x7bxChannel, yChannel\x7d`. -/
def uniqueRemainingRGB (x y z : ColorChannel) : Prop :=
  z ∈ [ColorChannel.red, .green, .blue] ∧ z ≠ x ∧ z ≠ y ∧
    ∀ c ∈ [ColorChannel.red, .green, .blue], c ≠ x → c ≠ y → c = z

instance (x y z : ColorChannel) : Decidable (uniqueRemainingRGB x y z) := by
  unfold uniqueRemainingRGB; infer_instance

/-- C8: channel resolution is the fixed deterministic lookup of
src/unnamed/part_000 lines 80–107 — with `xChannel` absent, `yChannel` maps
through red→blue, green→blue, blue→red and any other value to the default
pair (x: blue, y: green); symmetrically with `yChannel` absent, `xChannel`
maps through red→(y: green), blue→(y: red) and any other value to the
default pair; `zChannel` is the remaining RGB member; in particular
`yChannel = red` alone resolves to `xChannel = blue`, `zChannel = green`. -/
theorem c8_channel_resolution_table :
    (∀ yc : ColorChannel,
      resolveChannels none (some yc) =
        match yc with
        | .red => (.blue, .red, some .green)
        | .green => (.blue, .green, some .red)
        | .blue => (.red, .blue, some .green)
        | _ => (.blue, .green, some .red)) ∧
    (∀ xc : ColorChannel,
      resolveChannels (some xc) none =
        match xc with
        | .red => (.red, .green, some .blue)
        | .blue => (.blue, .red, some .green)
        | _ => (.blue, .green, some .red)) ∧
    resolveChannels none none = (.blue, .green, some .red) ∧
    resolveChannels none (some .red) = (.blue, .red, some .green) := by
  refine ⟨?_, ?_, ?_, ?_⟩ <;> decide

/-- C2 counterexample: supplying both axis channels bypasses the fallback
switches entirely, so `xChannel = 'red', yChannel = 'red'` resolves with
`xChannel = yChannel = red`, violating the claimed invariant
`xChannel ≠ yChannel`. -/
theorem c2_counterexample_equal_channels :
    (resolveChannels (some .red) (some .red)).1 = ColorChannel.red ∧
    (resolveChannels (some .red) (some .red)).2.1 = ColorChannel.red ∧
    (resolveChannels (some .red) (some .red)).1 =
      (resolveChannels (some .red) (some .red)).2.1 := by
  decide

/-- C2 amended: whenever at least one axis channel prop is absent, or both
are supplied as distinct members of the RGB triple, resolution yields
`xChannel ≠ yChannel` with `zChannel` the unique remaining RGB member, and
it never rejects input; when both props are supplied they are used
verbatim, so equal supplied channels escape the invariant. -/
theorem c2_channel_resolution_disjoint (xc yc : Option ColorChannel)
    (h : xc = none ∨ yc = none ∨
      (∃ a b, xc = some a ∧ yc = some b ∧ a ≠ b ∧
        a ∈ [ColorChannel.red, .green, .blue] ∧
        b ∈ [ColorChannel.red, .green, .blue])) :
    (resolveChannels xc yc).1 ≠ (resolveChannels xc yc).2.1 ∧
    ∃ z, (resolveChannels xc yc).2.2 = some z ∧
      uniqueRemainingRGB (resolveChannels xc yc).1 (resolveChannels xc yc).2.1 z := by
  revert h
  revert yc
  revert xc
  set_option synthInstance.maxSize 1024 in decide

/-- C2 amended, applied at the concrete input `xChannel` absent,
`yChannel = red`. -/
theorem c2_witness :
    (resolveChannels none (some .red)).1 ≠ (resolveChannels none (some .red)).2.1 ∧
    ∃ z, (resolveChannels none (some .red)).2.2 = some z ∧
      uniqueRemainingRGB (resolveChannels none (some .red)).1
        (resolveChannels none (some .red)).2.1 z :=
  c2_channel_resolution_disjoint none (some .red) (Or.inl rfl)

/-- C10: the press handlers of useSubMenuTrigger.ts lines 123–134 open the
submenu only for a virtual or keyboard press-start (with focus strategy
`first`) or a touch press (with no focus strategy); a mouse press — or any
pointer type other than virtual, keyboard or touch — opens nothing through
either handler. -/
theorem c10_press_handlers_open_conditions :
    ∀ pt : PointerType,
      (onPressStart pt = some (some .first) ↔ (pt = .virtual ∨ pt = .keyboard)) ∧
      (onPress pt = some none ↔ pt = .touch) ∧
      (pt ≠ .virtual → pt ≠ .keyboard → pt ≠ .touch →
        onPressStart pt = none ∧ onPress pt = none) ∧
      onPressStart .mouse = none ∧ onPress .mouse = none := by
  set_option synthInstance.maxSize 1024 in decide

/-- C10, applied at the concrete pointer type `mouse`: neither press
handler emits an open request. -/
theorem c10_witness :
    onPressStart PointerType.mouse = none ∧ onPress PointerType.mouse = none :=
  (c10_press_handlers_open_conditions PointerType.mouse).2.2.1
    (by decide) (by decide) (by decide)

/-- C4: evaluating the submenu keydown handler of useSubMenuTrigger.ts lines
78–99 on a hierarchy with two open levels — ArrowLeft under LTR closes this
submenu (one level), Escape closes every level under either direction, but
ArrowRight under RTL leaves the hierarchy unchanged, because line 88 only
evaluates the expression `onSubMenuClose;` without invoking the function;
the claim (and the mirrored LTR branch) requires it to close this
submenu. -/
theorem c4_keydown_rtl_arrowright_is_noop :
    subMenuKeyDown .ltr .arrowLeft 2 = (1, false) ∧
    subMenuKeyDown .rtl .arrowRight 2 = (2, false) ∧
    subMenuKeyDown .ltr .escape 3 = (0, false) ∧
    subMenuKeyDown .rtl .escape 3 = (0, false) ∧
    subMenuKeyDown .rtl .other 2 = (2, true) := by
  decide

/-- C9: constructing the model without `xChannelStep` yields step 1 — the
destructuring default of src/unnamed/part_000 line 70 — even when the
x channel's intrinsic step is 2, because the falsy test on line 116 can
never see an absent prop; the intrinsic step is reachable only by
explicitly passing `xChannelStep: 0`. -/
theorem c9_step_default_ignores_intrinsic :
    (useColorAreaState ⟨some testColorStep2, none, some .red, some .green,
      none, none⟩).xChannelStep = 1 ∧
    (testColorStep2.getChannelRange .red).step = 2 ∧
    (1 : ℚ) ≠ 2 ∧
    (useColorAreaState ⟨some testColorStep2, none, some .red, some .green,
      some 0, none⟩).xChannelStep = 2 := by
  refine ⟨?_, ?_, ?_, ?_⟩ <;> decide

/-- C5: starting from a non-dragging state, `setDragging(true)` fires no
callback; a subsequent `setDragging(false)` fires the end-callback exactly
once, carrying the color most recently committed before the `false` call; a
further `setDragging(false)` fires nothing, and `setDragging(false)` on a
non-dragging state fires nothing. -/
theorem c5_drag_end_fires_once (st : DragModel) (c : Color)
    (h : st.isDraggingRef = false) :
    (setDragging st true).2 = none ∧
    (setDragging (commitValue (setDragging st true).1 c) false).2 = some c ∧
    (setDragging (setDragging (commitValue (setDragging st true).1 c) false).1 false).2
      = none ∧
    (setDragging st false).2 = none := by
  simp [setDragging, commitValue, h]

/-- C5, applied at a concrete non-dragging state and a concrete committed
color. -/
theorem c5_witness :
    (setDragging ⟨false, false, DEFAULT_COLOR⟩ true).2 = none ∧
    (setDragging (commitValue (setDragging ⟨false, false, DEFAULT_COLOR⟩ true).1
      testColorStep2) false).2 = some testColorStep2 ∧
    (setDragging (setDragging (commitValue
      (setDragging ⟨false, false, DEFAULT_COLOR⟩ true).1 testColorStep2) false).1
      false).2 = none ∧
    (setDragging ⟨false, false, DEFAULT_COLOR⟩ false).2 = none :=
  c5_drag_end_fires_once ⟨false, false, DEFAULT_COLOR⟩ testColorStep2 rfl

theorem clamp_le (v lo hi : ℚ) : clamp v lo hi ≤ hi :=
  min_le_right _ _

theorem le_clamp (v lo hi : ℚ) (h : lo ≤ hi) : lo ≤ clamp v lo hi :=
  le_min (le_max_right _ _) h

theorem clamp_of_mem (v lo hi : ℚ) (h1 : lo ≤ v) (h2 : v ≤ hi) : clamp v lo hi = v := by
  unfold clamp
  rw [max_eq_left h1, min_eq_left h2]

theorem clamp_idem (v lo hi : ℚ) (h : lo ≤ hi) :
    clamp (clamp v lo hi) lo hi = clamp v lo hi :=
  clamp_of_mem _ _ _ (le_clamp _ _ _ h) (clamp_le _ _ _)

theorem snapValueToStep_mem (value lo hi step : ℚ) (h : lo ≤ hi) :
    lo ≤ snapValueToStep value lo hi step ∧ snapValueToStep value lo hi step ≤ hi := by
  unfold snapValueToStep
  split <;> exact ⟨le_clamp _ _ _ h, clamp_le _ _ _⟩

theorem withChannelValue_range (c : Color) (ch : ColorChannel) (v : ℚ)
    (ch' : ColorChannel) :
    (c.withChannelValue ch v).getChannelRange ch' = c.getChannelRange ch' := rfl

theorem withChannelValue_same (c : Color) (ch : ColorChannel) (v : ℚ) :
    (c.withChannelValue ch v).getChannelValue ch = v := by
  simp [Color.withChannelValue, Color.getChannelValue]

theorem withChannelValue_other (c : Color) (ch : ColorChannel) (v : ℚ)
    (ch' : ColorChannel) (h : ch' ≠ ch) :
    (c.withChannelValue ch v).getChannelValue ch' = c.getChannelValue ch' := by
  simp [Color.withChannelValue, Color.getChannelValue, h]

/-- C6: each arrow-key operation applies the step `max(minStepSize,
axisStep)`; when the current axis value is strictly inside the boundary in
the requested direction, the new channel value is the stepped value capped
at that boundary and stays within `[minValue, maxValue]`; when the current
value is already at (or beyond) the boundary in the requested direction,
the state is returned unchanged and no update is emitted. -/
theorem c6_step_max_clamp_noop (st : ColorAreaModel) (m : ℚ)
    (hm : 0 ≤ m) (hxs : 0 ≤ st.xChannelStep) (hys : 0 ≤ st.yChannelStep)
    (hx1 : (st.color.getChannelRange st.xChannel).minValue
      ≤ st.color.getChannelValue st.xChannel)
    (hx2 : st.color.getChannelValue st.xChannel
      ≤ (st.color.getChannelRange st.xChannel).maxValue)
    (hy1 : (st.color.getChannelRange st.yChannel).minValue
      ≤ st.color.getChannelValue st.yChannel)
    (hy2 : st.color.getChannelValue st.yChannel
      ≤ (st.color.getChannelRange st.yChannel).maxValue) :
    ((st.color.getChannelValue st.xChannel
        < (st.color.getChannelRange st.xChannel).maxValue →
      (incrementX st m).color.getChannelValue st.xChannel
        = min (st.color.getChannelValue st.xChannel + max m st.xChannelStep)
            (st.color.getChannelRange st.xChannel).maxValue ∧
      (st.color.getChannelRange st.xChannel).minValue
        ≤ (incrementX st m).color.getChannelValue st.xChannel ∧
      (incrementX st m).color.getChannelValue st.xChannel
        ≤ (st.color.getChannelRange st.xChannel).maxValue) ∧
     (¬ st.color.getChannelValue st.xChannel
        < (st.color.getChannelRange st.xChannel).maxValue →
      incrementX st m = st)) ∧
    ((st.color.getChannelValue st.yChannel
        < (st.color.getChannelRange st.yChannel).maxValue →
      (incrementY st m).color.getChannelValue st.yChannel
        = min (st.color.getChannelValue st.yChannel + max m st.yChannelStep)
            (st.color.getChannelRange st.yChannel).maxValue ∧
      (st.color.getChannelRange st.yChannel).minValue
        ≤ (incrementY st m).color.getChannelValue st.yChannel ∧
      (incrementY st m).color.getChannelValue st.yChannel
        ≤ (st.color.getChannelRange st.yChannel).maxValue) ∧
     (¬ st.color.getChannelValue st.yChannel
        < (st.color.getChannelRange st.yChannel).maxValue →
      incrementY st m = st)) ∧
    (((st.color.getChannelRange st.xChannel).minValue
        < st.color.getChannelValue st.xChannel →
      (decrementX st m).color.getChannelValue st.xChannel
        = max (st.color.getChannelValue st.xChannel - max m st.xChannelStep)
            (st.color.getChannelRange st.xChannel).minValue ∧
      (st.color.getChannelRange st.xChannel).minValue
        ≤ (decrementX st m).color.getChannelValue st.xChannel ∧
      (decrementX st m).color.getChannelValue st.xChannel
        ≤ (st.color.getChannelRange st.xChannel).maxValue) ∧
     (¬ (st.color.getChannelRange st.xChannel).minValue
        < st.color.getChannelValue st.xChannel →
      decrementX st m = st)) ∧
    (((st.color.getChannelRange st.yChannel).minValue
        < st.color.getChannelValue st.yChannel →
      (decrementY st m).color.getChannelValue st.yChannel
        = max (st.color.getChannelValue st.yChannel - max m st.yChannelStep)
            (st.color.getChannelRange st.yChannel).minValue ∧
      (st.color.getChannelRange st.yChannel).minValue
        ≤ (decrementY st m).color.getChannelValue st.yChannel ∧
      (decrementY st m).color.getChannelValue st.yChannel
        ≤ (st.color.getChannelRange st.yChannel).maxValue) ∧
     (¬ (st.color.getChannelRange st.yChannel).minValue
        < st.color.getChannelValue st.yChannel →
      decrementY st m = st)) := by
  refine ⟨⟨?_, ?_⟩, ⟨?_, ?_⟩, ⟨?_, ?_⟩, ⟨?_, ?_⟩⟩ <;> intro h
  · unfold incrementX
    rw [if_pos h]
    simp only [withChannelValue_same]
    exact ⟨trivial,
      le_min (le_trans hx1 (le_add_of_nonneg_right (le_trans hm (le_max_left _ _))))
        (le_trans hx1 hx2),
      min_le_right _ _⟩
  · unfold incrementX
    rw [if_neg h]
  · unfold incrementY
    rw [if_pos h]
    simp only [withChannelValue_same]
    exact ⟨trivial,
      le_min (le_trans hy1 (le_add_of_nonneg_right (le_trans hm (le_max_left _ _))))
        (le_trans hy1 hy2),
      min_le_right _ _⟩
  · unfold incrementY
    rw [if_neg h]
  · unfold decrementX
    rw [if_pos h]
    simp only [withChannelValue_same]
    exact ⟨trivial, le_max_right _ _,
      max_le (le_trans (sub_le_self _ (le_trans hm (le_max_left _ _))) hx2)
        (le_trans hx1 hx2)⟩
  · unfold decrementX
    rw [if_neg h]
  · unfold decrementY
    rw [if_pos h]
    simp only [withChannelValue_same]
    exact ⟨trivial, le_max_right _ _,
      max_le (le_trans (sub_le_self _ (le_trans hm (le_max_left _ _))) hy2)
        (le_trans hy1 hy2)⟩
  · unfold decrementY
    rw [if_neg h]

/-- C6, applied at the default model: an increment from the interior steps
to the capped value, and a decrement at the lower boundary is a no-op. -/
theorem c6_witness :
    (incrementX testAreaModel 0).color.getChannelValue testAreaModel.xChannel
      = min (testAreaModel.color.getChannelValue testAreaModel.xChannel
          + max 0 testAreaModel.xChannelStep)
          (testAreaModel.color.getChannelRange testAreaModel.xChannel).maxValue ∧
    decrementX testAreaModel 0 = testAreaModel :=
  ⟨((c6_step_max_clamp_noop testAreaModel 0 (by decide) (by decide) (by decide)
      (by decide) (by decide) (by decide) (by decide)).1.1 (by decide)).1,
   (c6_step_max_clamp_noop testAreaModel 0 (by decide) (by decide) (by decide)
      (by decide) (by decide) (by decide) (by decide)).2.2.1.2 (by decide)⟩

/-- The default model with its x axis channel (blue) set to 99.5, a valid
in-range value strictly between the boundaries 0 and 100. -/
def c7Model : ColorAreaModel :=
  { testAreaModel with color := testAreaModel.color.withChannelValue .blue (199/2) }

/-- The default model with its x axis channel (blue) set to 50. -/
def c7Mid : ColorAreaModel :=
  { testAreaModel with color := testAreaModel.color.withChannelValue .blue 50 }

/-- C7 counterexample: with the x channel at 99.5 — strictly inside the
range `[0, 100]`, so not at a boundary — and step 1, `incrementX` clamps to
100 and the following `decrementX` lands at 99, not back at 99.5. -/
theorem c7_counterexample_near_max :
    c7Model.color.getChannelValue c7Model.xChannel = 199/2 ∧
    (c7Model.color.getChannelRange c7Model.xChannel).minValue = 0 ∧
    (c7Model.color.getChannelRange c7Model.xChannel).maxValue = 100 ∧
    (0 : ℚ) < 199/2 ∧ (199/2 : ℚ) < 100 ∧
    (decrementX (incrementX c7Model 0) 0).color.getChannelValue c7Model.xChannel
      = 99 ∧
    (99 : ℚ) ≠ 199/2 := by
  refine ⟨rfl, rfl, rfl, by norm_num, by norm_num, ?_, by norm_num⟩
  norm_num [incrementX, decrementX, c7Model, testAreaModel, useColorAreaState,
    resolveChannels, DEFAULT_COLOR, Color.withChannelValue, Color.getChannelValue,
    Color.getChannelRange]

/-- C7 amended: `incrementX` followed by `decrementX` with equal
`minStepSize` returns the x channel to `v`, unless `v` is at a boundary of
the range or within one effective step of the maximum (there the increment
clamps to the maximum and the round trip lands one step below it). -/
theorem c7_inc_dec_roundtrip (st : ColorAreaModel) (m : ℚ)
    (h1 : (st.color.getChannelRange st.xChannel).minValue
      < st.color.getChannelValue st.xChannel)
    (h2 : st.color.getChannelValue st.xChannel
      < (st.color.getChannelRange st.xChannel).maxValue)
    (h3 : st.color.getChannelValue st.xChannel + max m st.xChannelStep
      ≤ (st.color.getChannelRange st.xChannel).maxValue)
    (h4 : 0 ≤ max m st.xChannelStep) :
    (decrementX (incrementX st m) m).color.getChannelValue st.xChannel
      = st.color.getChannelValue st.xChannel := by
  unfold incrementX
  rw [if_pos h2]
  unfold decrementX
  simp only [withChannelValue_range, withChannelValue_same, min_eq_left h3]
  rw [if_pos (lt_of_lt_of_le h1 (le_add_of_nonneg_right h4))]
  simp only [withChannelValue_same]
  rw [add_sub_cancel_right, max_eq_left (le_of_lt h1)]

/-- C7 amended, applied at the default model with the x channel at 50. -/
theorem c7_witness :
    (decrementX (incrementX c7Mid 0) 0).color.getChannelValue c7Mid.xChannel
      = c7Mid.color.getChannelValue c7Mid.xChannel :=
  c7_inc_dec_roundtrip c7Mid 0 (by norm_num [c7Mid, testAreaModel, useColorAreaState,
      resolveChannels, DEFAULT_COLOR, Color.withChannelValue, Color.getChannelValue,
      Color.getChannelRange])
    (by norm_num [c7Mid, testAreaModel, useColorAreaState, resolveChannels,
      DEFAULT_COLOR, Color.withChannelValue, Color.getChannelValue, Color.getChannelRange])
    (by norm_num [c7Mid, testAreaModel, useColorAreaState, resolveChannels,
      DEFAULT_COLOR, Color.withChannelValue, Color.getChannelValue, Color.getChannelRange])
    (by norm_num [c7Mid, testAreaModel, useColorAreaState, resolveChannels,
      DEFAULT_COLOR, Color.withChannelValue, Color.getChannelValue, Color.getChannelRange])

/-- C1: `setColorFromPoint` clamps each axis input to `[0,1]` (out-of-range
inputs behave exactly like their clamped values), maps linearly into the
channel range with y inverted (y = 0 reaches the maximum, y = 1 the
minimum), emits no update exactly when neither mapped axis value differs
from the current channel value, and otherwise replaces only the channels
whose mapped value differs, with the snapped value, which always lies
within the channel range; all other channels are untouched. -/
theorem c1_setColorFromPoint_spec (st : ColorAreaModel) (x y : ℚ)
    (hxy : st.xChannel ≠ st.yChannel)
    (hX : (st.color.getChannelRange st.xChannel).minValue
      ≤ (st.color.getChannelRange st.xChannel).maxValue)
    (hY : (st.color.getChannelRange st.yChannel).minValue
      ≤ (st.color.getChannelRange st.yChannel).maxValue) :
    setColorFromPoint st x y = setColorFromPoint st (clamp x 0 1) (clamp y 0 1) ∧
    mappedYValue st 0 = (st.color.getChannelRange st.yChannel).maxValue ∧
    mappedYValue st 1 = (st.color.getChannelRange st.yChannel).minValue ∧
    mappedXValue st 1 = (st.color.getChannelRange st.xChannel).maxValue ∧
    mappedXValue st 0 = (st.color.getChannelRange st.xChannel).minValue ∧
    (setColorFromPoint st x y = none ↔
      mappedXValue st x = st.color.getChannelValue st.xChannel ∧
      mappedYValue st y = st.color.getChannelValue st.yChannel) ∧
    (∀ c, setColorFromPoint st x y = some c →
      c.getChannelValue st.xChannel =
        (if mappedXValue st x = st.color.getChannelValue st.xChannel
         then st.color.getChannelValue st.xChannel
         else snapValueToStep (mappedXValue st x)
           (st.color.getChannelRange st.xChannel).minValue
           (st.color.getChannelRange st.xChannel).maxValue st.xChannelStep) ∧
      c.getChannelValue st.yChannel =
        (if mappedYValue st y = st.color.getChannelValue st.yChannel
         then st.color.getChannelValue st.yChannel
         else snapValueToStep (mappedYValue st y)
           (st.color.getChannelRange st.yChannel).minValue
           (st.color.getChannelRange st.yChannel).maxValue st.yChannelStep) ∧
      ∀ ch, ch ≠ st.xChannel → ch ≠ st.yChannel →
        c.getChannelValue ch = st.color.getChannelValue ch) ∧
    (st.color.getChannelRange st.xChannel).minValue
      ≤ snapValueToStep (mappedXValue st x)
          (st.color.getChannelRange st.xChannel).minValue
          (st.color.getChannelRange st.xChannel).maxValue st.xChannelStep ∧
    snapValueToStep (mappedXValue st x)
        (st.color.getChannelRange st.xChannel).minValue
        (st.color.getChannelRange st.xChannel).maxValue st.xChannelStep
      ≤ (st.color.getChannelRange st.xChannel).maxValue ∧
    (st.color.getChannelRange st.yChannel).minValue
      ≤ snapValueToStep (mappedYValue st y)
          (st.color.getChannelRange st.yChannel).minValue
          (st.color.getChannelRange st.yChannel).maxValue st.yChannelStep ∧
    snapValueToStep (mappedYValue st y)
        (st.color.getChannelRange st.yChannel).minValue
        (st.color.getChannelRange st.yChannel).maxValue st.yChannelStep
      ≤ (st.color.getChannelRange st.yChannel).maxValue := by
  have hmx : mappedXValue st (clamp x 0 1) = mappedXValue st x := by
    unfold mappedXValue
    rw [clamp_idem x 0 1 (by norm_num)]
  have hmy : mappedYValue st (clamp y 0 1) = mappedYValue st y := by
    unfold mappedYValue
    rw [clamp_idem y 0 1 (by norm_num)]
  refine ⟨?_, ?_, ?_, ?_, ?_, ?_, ?_, ?_, ?_, ?_, ?_⟩
  · simp only [setColorFromPoint, hmx, hmy]
  · have h0 : clamp (0 : ℚ) 0 1 = 0 := by norm_num [clamp]
    simp only [mappedYValue, h0]
    ring
  · have h1 : clamp (1 : ℚ) 0 1 = 1 := by norm_num [clamp]
    simp only [mappedYValue, h1]
    ring
  · have h1 : clamp (1 : ℚ) 0 1 = 1 := by norm_num [clamp]
    simp only [mappedXValue, h1]
    ring
  · have h0 : clamp (0 : ℚ) 0 1 = 0 := by norm_num [clamp]
    simp only [mappedXValue, h0]
    ring
  · by_cases hA : mappedXValue st x = st.color.getChannelValue st.xChannel <;>
      by_cases hB : mappedYValue st y = st.color.getChannelValue st.yChannel <;>
      simp [setColorFromPoint, hA, hB]
  · intro c hc
    by_cases hA : mappedXValue st x = st.color.getChannelValue st.xChannel
    · by_cases hB : mappedYValue st y = st.color.getChannelValue st.yChannel
      · simp [setColorFromPoint, hA, hB] at hc
      · simp [setColorFromPoint, hA, hB] at hc
        subst hc
        refine ⟨?_, ?_, ?_⟩
        · rw [if_pos hA]
          exact withChannelValue_other _ _ _ _ hxy
        · rw [if_neg hB]
          exact withChannelValue_same _ _ _
        · intro ch h1 h2
          exact withChannelValue_other _ _ _ _ h2
    · by_cases hB : mappedYValue st y = st.color.getChannelValue st.yChannel
      · simp [setColorFromPoint, hA, hB] at hc
        subst hc
        refine ⟨?_, ?_, ?_⟩
        · rw [if_neg hA]
          exact withChannelValue_same _ _ _
        · rw [if_pos hB]
          exact withChannelValue_other _ _ _ _ (Ne.symm hxy)
        · intro ch h1 h2
          exact withChannelValue_other _ _ _ _ h1
      · simp [setColorFromPoint, hA, hB] at hc
        subst hc
        refine ⟨?_, ?_, ?_⟩
        · rw [if_neg hA]
          rw [withChannelValue_other _ _ _ _ hxy]
          exact withChannelValue_same _ _ _
        · rw [if_neg hB]
          exact withChannelValue_same _ _ _
        · intro ch h1 h2
          rw [withChannelValue_other _ _ _ _ h2]
          exact withChannelValue_other _ _ _ _ h1
  · exact (snapValueToStep_mem _ _ _ _ hX).1
  · exact (snapValueToStep_mem _ _ _ _ hX).2
  · exact (snapValueToStep_mem _ _ _ _ hY).1
  · exact (snapValueToStep_mem _ _ _ _ hY).2

/-- C1, applied at the default model with out-of-range inputs: the call
behaves exactly as with the clamped inputs. -/
theorem c1_witness :
    setColorFromPoint testAreaModel 2 (-1)
      = setColorFromPoint testAreaModel (clamp 2 0 1) (clamp (-1) 0 1) :=
  (c1_setColorFromPoint_spec testAreaModel 2 (-1) (by decide) (by decide)
    (by decide)).1

theorem cancelOpenTimeout_openTimeout (s : SubMenuTriggerModel) :
    (cancelOpenTimeout s).openTimeout = none := by
  unfold cancelOpenTimeout
  cases h : s.openTimeout <;> simp [h]

theorem cancelOpenTimeout_isOpen (s : SubMenuTriggerModel) :
    (cancelOpenTimeout s).isOpen = s.isOpen := by
  unfold cancelOpenTimeout
  cases h : s.openTimeout <;> rfl

theorem cancelOpenTimeout_live (s : SubMenuTriggerModel) (h : s.Inv) :
    (cancelOpenTimeout s).live = [] := by
  unfold cancelOpenTimeout
  unfold SubMenuTriggerModel.Inv at h
  cases hq : s.openTimeout with
  | none => rw [hq] at h; exact h
  | some id => rw [hq] at h; simp [h]

theorem cancelOpenTimeout_inv (s : SubMenuTriggerModel) (h : s.Inv) :
    (cancelOpenTimeout s).Inv := by
  unfold SubMenuTriggerModel.Inv
  rw [cancelOpenTimeout_openTimeout s]
  exact cancelOpenTimeout_live s h

theorem onSubmenuOpen_openTimeout (s : SubMenuTriggerModel) :
    (onSubmenuOpen s).openTimeout = none :=
  cancelOpenTimeout_openTimeout s

theorem onSubmenuOpen_live (s : SubMenuTriggerModel) (h : s.Inv) :
    (onSubmenuOpen s).live = [] :=
  cancelOpenTimeout_live s h

theorem onSubmenuOpen_inv (s : SubMenuTriggerModel) (h : s.Inv) :
    (onSubmenuOpen s).Inv := by
  unfold SubMenuTriggerModel.Inv
  rw [onSubmenuOpen_openTimeout s]
  exact onSubmenuOpen_live s h

theorem onSubMenuClose_inv (s : SubMenuTriggerModel) (h : s.Inv) :
    (onSubMenuClose s).Inv := by
  have h1 : (onSubMenuClose s).openTimeout = none := cancelOpenTimeout_openTimeout s
  unfold SubMenuTriggerModel.Inv
  rw [h1]
  exact cancelOpenTimeout_live s h

theorem subMenuStep_inv (s : SubMenuTriggerModel) (e : SubMenuEvent) (h : s.Inv) :
    (subMenuStep s e).Inv := by
  cases e with
  | hoverEnter =>
    simp only [subMenuStep]
    split
    · rename_i hg
      simp only [Bool.and_eq_true, Option.isNone_iff_eq_none] at hg
      unfold SubMenuTriggerModel.Inv at h ⊢
      rw [hg.2] at h
      simp [h]
    · exact h
  | hoverExit =>
    simp only [subMenuStep]
    exact cancelOpenTimeout_inv s h
  | timerFire id =>
    simp only [subMenuStep]
    split
    · rename_i hmem
      unfold SubMenuTriggerModel.Inv at h
      cases hq : s.openTimeout with
      | none =>
        rw [hq] at h
        rw [h] at hmem
        simp at hmem
      | some j =>
        rw [hq] at h
        unfold onSubmenuOpen cancelOpenTimeout
        simp only [h, hq]
        unfold SubMenuTriggerModel.Inv
        simp
        rcases eq_or_ne id j with hij | hij
        · exact Or.inl hij.symm
        · exact Or.inr hij
    · exact h
  | keyboardOpen =>
    simp only [subMenuStep]
    exact onSubmenuOpen_inv s h
  | touchOpen =>
    simp only [subMenuStep]
    exact onSubmenuOpen_inv s h
  | closeMenu =>
    simp only [subMenuStep]
    exact onSubMenuClose_inv s h
  | unmount =>
    simp only [subMenuStep]
    exact cancelOpenTimeout_inv s h

theorem subMenuRun_inv (es : List SubMenuEvent) (s : SubMenuTriggerModel)
    (h : s.Inv) : (subMenuRun s es).Inv := by
  induction es generalizing s with
  | nil => exact h
  | cons e es ih =>
    show (subMenuRun (subMenuStep s e) es).Inv
    exact ih _ (subMenuStep_inv s e h)

theorem inv_live_length (s : SubMenuTriggerModel) (h : s.Inv) :
    s.live.length ≤ 1 := by
  unfold SubMenuTriggerModel.Inv at h
  cases hq : s.openTimeout <;> rw [hq] at h <;> simp [h]

theorem subMenuStep_hoverEnter_isOpen (s : SubMenuTriggerModel) :
    (subMenuStep s .hoverEnter).isOpen = s.isOpen := by
  simp only [subMenuStep]
  split <;> rfl

theorem subMenuStep_arm_only_hoverEnter (t : SubMenuTriggerModel) (e : SubMenuEvent)
    (h0 : t.openTimeout = none) (h1 : (subMenuStep t e).openTimeout ≠ none) :
    e = SubMenuEvent.hoverEnter ∧ t.isOpen = false := by
  cases e with
  | hoverEnter =>
    refine ⟨rfl, ?_⟩
    simp only [subMenuStep] at h1
    by_cases hb : t.isOpen = true
    · exfalso
      apply h1
      rw [if_neg (by simp [hb])]
      exact h0
    · simpa using hb
  | hoverExit =>
    exact absurd (by simp only [subMenuStep]; exact cancelOpenTimeout_openTimeout t) h1
  | timerFire id =>
    exfalso
    apply h1
    simp only [subMenuStep]
    split
    · exact onSubmenuOpen_openTimeout _
    · exact h0
  | keyboardOpen =>
    exact absurd (by simp only [subMenuStep]; exact onSubmenuOpen_openTimeout t) h1
  | touchOpen =>
    exact absurd (by simp only [subMenuStep]; exact onSubmenuOpen_openTimeout t) h1
  | closeMenu =>
    exact absurd (by simp only [subMenuStep]; exact cancelOpenTimeout_openTimeout t) h1
  | unmount =>
    exact absurd (by simp only [subMenuStep]; exact cancelOpenTimeout_openTimeout t) h1

theorem timerFire_noop_of_empty (u : SubMenuTriggerModel) (id : Nat)
    (h : u.live = []) : subMenuStep u (.timerFire id) = u := by
  simp only [subMenuStep]
  rw [if_neg (by rw [h]; simp)]

/-- A pending-open state: the submenu is closed and one hover-delay timer
(handle 0) is armed and tracked, as after a hover-enter on a fresh
trigger. -/
def pendingSubMenuTrigger : SubMenuTriggerModel :=
  { isOpen := false, openTimeout := some 0, live := [0], nextId := 1 }

/-- C3: for the submenu timing state machine — (1) every state reachable
from a fresh mount satisfies the single-timer invariant, so at most one
open-delay timer is ever pending; (2) a step can create a tracked timer
only on hover-enter while closed with none pending; (3) for an arbitrary
state satisfying the invariant — in particular any pending-open state —
hover-exit, immediate keyboard/touch open, close and unmount all leave no
armed timer behind, and after hover-exit, unmount or close the canceled
timer's firing is a complete no-op, so a stale open never fires after the
user moved away or the component was torn down; (4) from a closed,
timer-free state, hover-enter followed by hover-exit before the delay
elapses leaves the submenu closed even if the timer's firing is attempted,
while hover-enter followed by the timer firing opens the submenu. -/
theorem c3_single_pending_timer (es : List SubMenuEvent)
    (t : SubMenuTriggerModel) (id : Nat) (hInv : t.Inv) :
    (subMenuRun initSubMenuTrigger es).live.length ≤ 1 ∧
    (subMenuRun initSubMenuTrigger es).Inv ∧
    (∀ u : SubMenuTriggerModel, ∀ e : SubMenuEvent, u.openTimeout = none →
      (subMenuStep u e).openTimeout ≠ none →
      e = SubMenuEvent.hoverEnter ∧ u.isOpen = false) ∧
    (subMenuStep t .hoverExit).live = [] ∧
    (subMenuStep t .keyboardOpen).live = [] ∧
    (subMenuStep t .touchOpen).live = [] ∧
    (subMenuStep t .closeMenu).live = [] ∧
    (subMenuStep t .unmount).live = [] ∧
    subMenuStep (subMenuStep t .hoverExit) (.timerFire id)
      = subMenuStep t .hoverExit ∧
    subMenuStep (subMenuStep t .unmount) (.timerFire id)
      = subMenuStep t .unmount ∧
    subMenuStep (subMenuStep t .closeMenu) (.timerFire id)
      = subMenuStep t .closeMenu ∧
    (t.isOpen = false → t.openTimeout = none →
      (subMenuRun t [.hoverEnter, .hoverExit, .timerFire id]).isOpen = false ∧
      (subMenuRun t [.hoverEnter, .timerFire t.nextId]).isOpen = true) := by
  have hExit : (subMenuStep t .hoverExit).live = [] := by
    simp only [subMenuStep]
    exact cancelOpenTimeout_live t hInv
  have hKey : (subMenuStep t .keyboardOpen).live = [] := by
    simp only [subMenuStep]
    exact onSubmenuOpen_live t hInv
  have hTouch : (subMenuStep t .touchOpen).live = [] := by
    simp only [subMenuStep]
    exact onSubmenuOpen_live t hInv
  have hClose : (subMenuStep t .closeMenu).live = [] := by
    simp only [subMenuStep]
    exact cancelOpenTimeout_live t hInv
  have hUnmount : (subMenuStep t .unmount).live = [] := by
    simp only [subMenuStep]
    exact cancelOpenTimeout_live t hInv
  refine ⟨?_, ?_, ?_, hExit, hKey, hTouch, hClose, hUnmount,
    timerFire_noop_of_empty _ id hExit, timerFire_noop_of_empty _ id hUnmount,
    timerFire_noop_of_empty _ id hClose, ?_⟩
  · exact inv_live_length _ (subMenuRun_inv es initSubMenuTrigger (by decide))
  · exact subMenuRun_inv es initSubMenuTrigger (by decide)
  · exact fun u e h0 h1 => subMenuStep_arm_only_hoverEnter u e h0 h1
  · intro hClosed hNone
    have hlive : t.live = [] := by
      unfold SubMenuTriggerModel.Inv at hInv
      rw [hNone] at hInv
      exact hInv
    constructor
    · show (subMenuStep (subMenuStep (subMenuStep t .hoverEnter) .hoverExit)
        (.timerFire id)).isOpen = false
      have hInv1 : (subMenuStep t .hoverEnter).Inv := subMenuStep_inv t _ hInv
      have hOpen1 : (subMenuStep t .hoverEnter).isOpen = false := by
        rw [subMenuStep_hoverEnter_isOpen]
        exact hClosed
      have hlive2 : (subMenuStep (subMenuStep t .hoverEnter) .hoverExit).live = [] := by
        simp only [subMenuStep]
        exact cancelOpenTimeout_live _ hInv1
      have hOpen2 : (subMenuStep (subMenuStep t .hoverEnter) .hoverExit).isOpen
          = false := by
        simp only [subMenuStep]
        rw [cancelOpenTimeout_isOpen]
        exact hOpen1
      rw [timerFire_noop_of_empty _ id hlive2]
      exact hOpen2
    · show (subMenuStep (subMenuStep t .hoverEnter) (.timerFire t.nextId)).isOpen = true
      have harm : subMenuStep t .hoverEnter
          = { t with openTimeout := some t.nextId, live := t.live ++ [t.nextId],
                     nextId := t.nextId + 1 } := by
        simp only [subMenuStep]
        have hg : (!t.isOpen && t.openTimeout.isNone) = true := by
          simp [hClosed, hNone]
        rw [if_pos hg]
      rw [harm]
      simp only [subMenuStep]
      split
      · rfl
      · rename_i hcontains
        exact absurd (by simp [hlive]) hcontains

/-- C3, applied at a pending-open state (closed, timer handle 0 armed and
tracked) and a one-event hover-enter trace from a fresh mount: the
cancellation and stale-fire conjuncts are exercised with a timer actually
pending. -/
theorem c3_witness :
    (subMenuRun initSubMenuTrigger [SubMenuEvent.hoverEnter]).live.length ≤ 1 ∧
    (subMenuRun initSubMenuTrigger [SubMenuEvent.hoverEnter]).Inv ∧
    (∀ u : SubMenuTriggerModel, ∀ e : SubMenuEvent, u.openTimeout = none →
      (subMenuStep u e).openTimeout ≠ none →
      e = SubMenuEvent.hoverEnter ∧ u.isOpen = false) ∧
    (subMenuStep pendingSubMenuTrigger .hoverExit).live = [] ∧
    (subMenuStep pendingSubMenuTrigger .keyboardOpen).live = [] ∧
    (subMenuStep pendingSubMenuTrigger .touchOpen).live = [] ∧
    (subMenuStep pendingSubMenuTrigger .closeMenu).live = [] ∧
    (subMenuStep pendingSubMenuTrigger .unmount).live = [] ∧
    subMenuStep (subMenuStep pendingSubMenuTrigger .hoverExit) (.timerFire 0)
      = subMenuStep pendingSubMenuTrigger .hoverExit ∧
    subMenuStep (subMenuStep pendingSubMenuTrigger .unmount) (.timerFire 0)
      = subMenuStep pendingSubMenuTrigger .unmount ∧
    subMenuStep (subMenuStep pendingSubMenuTrigger .closeMenu) (.timerFire 0)
      = subMenuStep pendingSubMenuTrigger .closeMenu ∧
    (pendingSubMenuTrigger.isOpen = false →
      pendingSubMenuTrigger.openTimeout = none →
      (subMenuRun pendingSubMenuTrigger
        [.hoverEnter, .hoverExit, .timerFire 0]).isOpen = false ∧
      (subMenuRun pendingSubMenuTrigger
        [.hoverEnter, .timerFire pendingSubMenuTrigger.nextId]).isOpen = true) :=
  c3_single_pending_timer [SubMenuEvent.hoverEnter] pendingSubMenuTrigger 0
    (by decide)
